import Mathlib

/-!
Verification development for the go-oci8 Oracle driver core
(`oci8.go`): the connection-string parser `ParseDSN`, the
connection-establishment resource-acquisition ladder `Open`, transaction
control `Commit`/`Rollback`, and the `placeholders` rewriter.

Pure Go code is embedded as Lean functions.  Native OCI calls made by
`Open`, `Commit` and `Rollback` are embedded by passing in a `Native`
record of call outcomes (a fake native layer), and the model records the
handle allocations and frees the Go code performs, in order.
-/

namespace Oci8

/-! ### OCI constants (values from the OCI headers used by oci8.go.h) -/

def OCI_SUCCESS : Int := 0
def OCI_SUCCESS_WITH_INFO : Int := 1
def OCI_DEFAULT : Nat := 0
def OCI_SYSDBA : Nat := 2
def OCI_SYSOPER : Nat := 4
def OCI_SYSASM : Nat := 32768
def OCI_TRANS_READONLY : Nat := 256
def OCI_TRANS_READWRITE : Nat := 512
def OCI_TRANS_SERIALIZABLE : Nat := 1024

/-! ### The configuration object

The Go `DSN` struct.  Field defaults are the Go zero values; `ParseDSN`
sets `Location` and the prefetch/mode defaults explicitly, exactly as the
source does.  `time.Location` values are represented by their name, with
`time.Local` represented as `"Local"`. -/

structure DSN where
  Username : String := ""
  Password : String := ""
  Connect : String := ""
  Location : String := ""
  transactionMode : Nat := 0
  enableQMPlaceholders : Bool := false
  prefetchRows : Nat := 0
  prefetchMemory : Nat := 0
  operationMode : Nat := 0
  externalauthentication : Bool := false
  deriving DecidableEq, Repr

/-! ### String helpers used by ParseDSN

These helpers (`splitRight`, `parseAuthority`, `unescape`, `ParseQuery`)
are package code of this repository that is not under `src/`; they are
modelled from the spec (sections 4.1 and 6). -/

/-- Splits a character list at the last occurrence of `c`:
`some (before, after)` when `c` occurs, `none` otherwise. -/
def splitLastAux : List Char → Char → Option (List Char × List Char)
  | [], _ => none
  | x :: xs, c =>
    match splitLastAux xs c with
    | some (a, b) => some (x :: a, b)
    | none => if x = c then some ([], xs) else none

/-- Modelled from the spec: `splitRight` splits a string at the last
occurrence of the (single-character) separator; when the separator is
absent the second component is empty and the first is the whole string
(the query and the `@`-terminated authority are both optional trailing
or leading parts of the grammar, so a query-less DSN keeps its host;
an input without `@` is then all authority, which the source guards
with `authority != ""`). -/
def splitRight (s : String) (sep : Char) : String × String :=
  match splitLastAux s.data sep with
  | some (a, b) => (⟨a⟩, ⟨b⟩)
  | none => (s, "")

/-- The percent-decoding modes of the net/url-derived helper. -/
inductive Encoding
  | host
  | userPassword
  | queryComponent
  deriving DecidableEq, Repr

def hexVal (c : Char) : Option Nat :=
  if '0' ≤ c ∧ c ≤ '9' then some (c.toNat - 48)
  else if 'a' ≤ c ∧ c ≤ 'f' then some (c.toNat - 87)
  else if 'A' ≤ c ∧ c ≤ 'F' then some (c.toNat - 55)
  else none

/-- Modelled from the spec: percent-decoding.  A `%` must be followed by
two hex digits, otherwise decoding fails ("invalid URL escape"); in the
query component a `+` decodes to a space. -/
def unescapeList (enc : Encoding) : List Char → Except String (List Char)
  | [] => .ok []
  | '%' :: a :: b :: rest =>
    match hexVal a, hexVal b with
    | some x, some y =>
      match unescapeList enc rest with
      | .ok r => .ok (Char.ofNat (16 * x + y) :: r)
      | .error e => .error e
    | _, _ => .error "invalid URL escape"
  | '%' :: _ => .error "invalid URL escape"
  | c :: rest =>
    match unescapeList enc rest with
    | .ok r => .ok ((if c = '+' ∧ enc = Encoding.queryComponent then ' ' else c) :: r)
    | .error e => .error e

def unescape (s : String) (enc : Encoding) : Except String String :=
  match unescapeList enc s.data with
  | .ok l => .ok ⟨l⟩
  | .error e => .error e

/-- Modelled from the spec: the authority segment is split at the last
`/` into username and password, each percent-decoded; without a `/` the
whole (decoded) segment is the username and the password is empty. -/
def parseAuthority (authority : String) : Except String (String × String) :=
  match splitLastAux authority.data '/' with
  | some (u, p) =>
    match unescape ⟨u⟩ Encoding.userPassword, unescape ⟨p⟩ Encoding.userPassword with
    | .ok uu, .ok pp => .ok (uu, pp)
    | .error e, _ => .error e
    | .ok _, .error e => .error e
  | none =>
    match unescape authority Encoding.userPassword with
    | .ok uu => .ok (uu, "")
    | .error e => .error e

/-- The guarded call `if authority != "" { parseAuthority(authority) }`
of the source: an empty authority contributes empty username/password. -/
def authorityResult (a : String) : Except String (String × String) :=
  if a = "" then .ok ("", "") else parseAuthority a

/-- Splits a query string on `&` into its raw pairs. -/
def splitAmp : List Char → List Char → List String
  | [], cur => [⟨cur.reverse⟩]
  | c :: cs, cur =>
    if c = '&' then ⟨cur.reverse⟩ :: splitAmp cs [] else splitAmp cs (c :: cur)

/-- Splits a raw pair at the first `=` into key and value. -/
def cutEq : List Char → List Char × List Char
  | [] => ([], [])
  | c :: cs =>
    if c = '=' then ([], cs)
    else
      let r := cutEq cs
      (c :: r.1, r.2)

/-- Inserts a value for a key into the value map, preserving first-seen
key order and appending to the key's value list. -/
def insertValue : List (String × List String) → String → String → List (String × List String)
  | [], k, v => [(k, [v])]
  | (k1, vs) :: rest, k, v =>
    if k1 = k then (k1, vs ++ [v]) :: rest
    else (k1, vs) :: insertValue rest k v

def keepFirst : Option String → String → Option String
  | some e, _ => some e
  | none, e => some e

def parseQueryFold (acc : List (String × List String) × Option String) (part : String) :
    List (String × List String) × Option String :=
  if part = "" then acc
  else
    let kv := cutEq part.data
    match unescapeList Encoding.queryComponent kv.1,
          unescapeList Encoding.queryComponent kv.2 with
    | .ok k, .ok v => (insertValue acc.1 ⟨k⟩ ⟨v⟩, acc.2)
    | .error e, _ => (acc.1, keepFirst acc.2 e)
    | .ok _, .error e => (acc.1, keepFirst acc.2 e)

/-- Modelled from the spec: standard form-encoding — `&`-separated
pairs, `=`-separated key/value, percent-decoded.  A pair whose key or
value fails to decode is skipped and the first such error is reported
alongside the successfully parsed map (the Go signature returns both a
map and an error). -/
def ParseQuery (query : String) : List (String × List String) × Option String :=
  (splitAmp query.data []).foldl parseQueryFold ([], none)

/-- `strconv.ParseUint(v, 10, 32)`: a non-empty all-digit decimal string
whose value fits in 32 bits. -/
def digitsToNat (l : List Char) : Nat :=
  l.foldl (fun acc c => acc * 10 + (c.toNat - 48)) 0

def parseUint32 (s : String) : Option Nat :=
  if s.data.isEmpty then none
  else if s.data.all Char.isDigit then
    if digitsToNat s.data < 4294967296 then some (digitsToNat s.data) else none
  else none

/-! ### ParseDSN -/

/-- Applies one recognized query parameter to the configuration,
mirroring the `switch k` of the source loop (lines 66-119).  `v.headD ""`
models the Go `v[0]`; `ParseQuery` never produces an empty value list.
`loadLoc` embeds `time.LoadLocation` (an OS-dependent lookup), so the
model is parametric in it.  The Go "Invalid loc" message also carries the
underlying error text, elided here. -/
def applyParam (loadLoc : String → Option String) (dsn : DSN) (k : String)
    (v : List String) : Except String DSN :=
  match k with
  | "loc" =>
    if v.length > 0 then
      match loadLoc (v.headD "") with
      | some l => .ok { dsn with Location := l }
      | none => .error ("Invalid loc: " ++ v.headD "")
    else .ok dsn
  | "isolation" =>
    match v.headD "" with
    | "READONLY" => .ok { dsn with transactionMode := OCI_TRANS_READONLY }
    | "SERIALIZABLE" => .ok { dsn with transactionMode := OCI_TRANS_SERIALIZABLE }
    | "DEFAULT" => .ok { dsn with transactionMode := OCI_TRANS_READWRITE }
    | other => .error ("Invalid isolation: " ++ other)
  | "questionph" =>
    match v.headD "" with
    | "YES" => .ok { dsn with enableQMPlaceholders := true }
    | "TRUE" => .ok { dsn with enableQMPlaceholders := true }
    | "NO" => .ok { dsn with enableQMPlaceholders := false }
    | "FALSE" => .ok { dsn with enableQMPlaceholders := false }
    | other => .error ("Invalid questionpm: " ++ other)
  | "prefetch_rows" =>
    match parseUint32 (v.headD "") with
    | some z => .ok { dsn with prefetchRows := z }
    | none => .error ("invalid prefetch_rows: " ++ v.headD "")
  | "prefetch_memory" =>
    match parseUint32 (v.headD "") with
    | some z => .ok { dsn with prefetchMemory := z }
    | none => .error ("invalid prefetch_memory: " ++ v.headD "")
  | "as" =>
    match v.headD "" with
    | "SYSDBA" | "sysdba" => .ok { dsn with operationMode := OCI_SYSDBA }
    | "SYSASM" | "sysasm" => .ok { dsn with operationMode := OCI_SYSASM }
    | "SYSOPER" | "sysoper" => .ok { dsn with operationMode := OCI_SYSOPER }
    | other => .error ("Invalid as: " ++ other)
  | _ => .ok dsn

/-- The `for k, v := range qp` loop of the source: the first failing
recognized parameter aborts. -/
def applyParams (loadLoc : String → Option String) (dsn : DSN) :
    List (String × List String) → Except String DSN
  | [] => .ok dsn
  | (k, v) :: rest =>
    match applyParam loadLoc dsn k v with
    | .ok d => applyParams loadLoc d rest
    | .error e => .error e

/-- Strips the `oracle://` scheme prefix if present (source lines 38-42). -/
def stripScheme (s : String) : String :=
  if s.data.take 9 = "oracle://".data then ⟨s.data.drop 9⟩ else s

/-- The configuration state reached after the authority and host are
parsed and the safe defaults are applied (source lines 32, 44-63). -/
def dsnAfterHost (u p host : String) : DSN :=
  { Username := u, Password := p, Connect := host, Location := "Local",
    prefetchRows := 10, prefetchMemory := 0, operationMode := OCI_DEFAULT }

/-- The host-spec part of a DSN string: everything between the last `@`
(exclusive) and the last `?` of the remainder. -/
def hostPart (s : String) : String :=
  (splitRight (splitRight (stripScheme s) '@').2 '?').1

/-- The raw query part of a DSN string. -/
def queryPart (s : String) : String :=
  (splitRight (splitRight (stripScheme s) '@').2 '?').2

/-- The parsed query map of a DSN string, as `ParseDSN` sees it. -/
def queryOf (s : String) : List (String × List String) :=
  (ParseQuery (queryPart s)).1

/-- `ParseDSN` (source lines 30-125).  Faithful to the source structure:
the error of `ParseQuery` is assigned but never checked (line 65), so a
malformed query never aborts; the final `return dsn, nil` returns the
configuration regardless. -/
def ParseDSN (loadLoc : String → Option String) (dsnString : String) : Except String DSN :=
  if dsnString = "" then .error "empty dsn"
  else
    match authorityResult (splitRight (stripScheme dsnString) '@').1 with
    | .error e => .error e
    | .ok (u, p) =>
      match unescape (hostPart dsnString) Encoding.host with
      | .error e => .error e
      | .ok host =>
        match applyParams loadLoc (dsnAfterHost u p host) (queryOf dsnString) with
        | .error e => .error e
        | .ok d =>
          if d.Username.length + d.Password.length + d.Connect.length = 0 then
            .ok { d with externalauthentication := true }
          else .ok d

/-! ### Placeholder rewriting

`placeholders` (source lines 397-404) replaces every match of the
module-wide compiled pattern `phre` by `":" + strconv.Itoa(n)` with a
counter starting at 0 and incremented before each replacement.  The
pattern itself is not under `src/`; modelled from the spec and the
source comment ("converts \x22?\x22 characters to :1, :2, ... :n"): the
pattern matches the literal `?` character.  `strconv.Itoa` is embedded
as `Nat.repr` (the counter is always positive). -/

def placeholdersAux : List Char → Nat → List Char
  | [], _ => []
  | c :: cs, n =>
    if c = '?' then ':' :: (Nat.repr (n + 1)).data ++ placeholdersAux cs (n + 1)
    else c :: placeholdersAux cs n

def placeholders (sql : String) : String :=
  ⟨placeholdersAux sql.data 0⟩

/-! ### Connection, transaction control and the acquisition ladder

Native OCI call outcomes are supplied by a `Native` record (a fake
native layer, as the spec's test guidance suggests); handle pointers are
modelled as `Nat`.  `conn.getError(rv)`, defined outside `src/`, is
modelled from the spec as the native diagnostic keyed by the failing
status code (`OpenErr.native`). -/

/-- Outcomes and returned pointers of the native calls `Open`, `Commit`
and `Rollback` make, in source order.  `serverAttach` and
`sessionBegin` are listed because the source invokes those calls, but
their statuses are never checked (source lines 213-227 and 314-329). -/
structure Native where
  envCreate : Int := 0
  envPtr : Nat := 1
  allocErr : Int := 0
  errPtr : Nat := 2
  allocSrv : Int := 0
  srvPtr : Nat := 3
  serverAttach : Int := 0
  allocSvc : Int := 0
  svcPtr : Nat := 4
  attrSetServer : Int := 0
  allocSession : Int := 0
  sessionPtr : Nat := 5
  attrSetUsername : Int := 0
  attrSetPassword : Int := 0
  sessionBegin : Int := 0
  attrSetSession : Int := 0
  logon : Int := 0
  logonPtr : Nat := 6
  transCommit : Int := 0
  transRollback : Int := 0
  deriving DecidableEq, Repr

/-- The handle kinds the ladder allocates and frees. -/
inductive HType
  | env
  | err
  | srv
  | svc
  | session
  deriving DecidableEq, Repr

/-- Errors `Open` can return: a `ParseDSN` error, a fixed generic
message (no error handle yet), or a native diagnostic keyed by the
failing status code. -/
inductive OpenErr
  | parse (msg : String)
  | generic (msg : String)
  | native (status : Int)
  deriving DecidableEq, Repr

/-- The `OCI8Conn` fields the core touches: the handle chain and the
settings copied from the configuration, plus the in-transaction flag. -/
structure ConnState where
  env : Option Nat := none
  errHandle : Option Nat := none
  srv : Option Nat := none
  svc : Option Nat := none
  usrSession : Option Nat := none
  operationMode : Nat := 0
  location : String := ""
  transactionMode : Nat := 0
  prefetchRows : Nat := 0
  prefetchMemory : Nat := 0
  enableQMPlaceholders : Bool := false
  inTransaction : Bool := false
  deriving DecidableEq, Repr

/-- Post-acquisition copy of the configuration settings into the
connection (source lines 371-375). -/
def copySettings (c : ConnState) (dsn : DSN) : ConnState :=
  { c with location := dsn.Location, transactionMode := dsn.transactionMode,
           prefetchRows := dsn.prefetchRows, prefetchMemory := dsn.prefetchMemory,
           enableQMPlaceholders := dsn.enableQMPlaceholders }

/-- The observable outcome of one `Open` run: whether a connection was
returned, the error if not, the final local connection state, and the
handle allocations and frees in the order the source performs them. -/
structure OpenResult where
  ok : Bool
  errMsg : Option OpenErr
  conn : ConnState
  allocs : List HType
  frees : List HType
  deriving DecidableEq, Repr

/-- The five-handle failure exit of the session-protocol branch:
releases usrSession, svc, srv, err, env in that order. -/
def fail5 (e : OpenErr) (c : ConnState) : OpenResult :=
  { ok := false, errMsg := some e, conn := c,
    allocs := [HType.env, HType.err, HType.srv, HType.svc, HType.session],
    frees := [HType.session, HType.svc, HType.srv, HType.err, HType.env] }

/-- `Open` (source lines 152-380).  The `useOCISessionBegin` flag is the
file-scoped protocol-selection boolean; it is passed explicitly.  Each
`if` mirrors a checked native call of the source; `WrapOCIServerAttach`
and `WrapOCISessionBegin` are invoked by the source without checking
their status, so `native.serverAttach` and `native.sessionBegin` do not
influence the run. -/
def Open (loadLoc : String → Option String) (native : Native)
    (useOCISessionBegin : Bool) (dsnString : String) : OpenResult :=
  match ParseDSN loadLoc dsnString with
  | .error e => { ok := false, errMsg := some (.parse e), conn := {}, allocs := [], frees := [] }
  | .ok dsn =>
    let conn0 : ConnState := { operationMode := dsn.operationMode }
    if native.envCreate ≠ OCI_SUCCESS ∧ native.envCreate ≠ OCI_SUCCESS_WITH_INFO then
      { ok := false, errMsg := some (.generic "can't OCIEnvCreate"), conn := conn0,
        allocs := [], frees := [] }
    else
      let conn1 := { conn0 with env := some native.envPtr }
      if native.allocErr ≠ OCI_SUCCESS then
        { ok := false, errMsg := some (.generic "cant allocate error handle"), conn := conn1,
          allocs := [HType.env], frees := [HType.env] }
      else
        let conn2 := { conn1 with errHandle := some native.errPtr }
        if useOCISessionBegin then
          if native.allocSrv ≠ OCI_SUCCESS then
            { ok := false, errMsg := some (.generic "cant allocate server handle"), conn := conn2,
              allocs := [HType.env, HType.err], frees := [HType.err, HType.env] }
          else
            let conn3 := { conn2 with srv := some native.srvPtr }
            if native.allocSvc ≠ OCI_SUCCESS then
              { ok := false, errMsg := some (.generic "cant allocate service handle"), conn := conn3,
                allocs := [HType.env, HType.err, HType.srv],
                frees := [HType.srv, HType.err, HType.env] }
            else
              let conn4 := { conn3 with svc := some native.svcPtr }
              if native.attrSetServer ≠ OCI_SUCCESS then
                { ok := false, errMsg := some (.native native.attrSetServer), conn := conn4,
                  allocs := [HType.env, HType.err, HType.srv, HType.svc],
                  frees := [HType.svc, HType.srv, HType.err, HType.env] }
              else
                if native.allocSession ≠ OCI_SUCCESS then
                  { ok := false, errMsg := some (.generic "cant allocate user session handle"),
                    conn := conn4,
                    allocs := [HType.env, HType.err, HType.srv, HType.svc],
                    frees := [HType.svc, HType.srv, HType.err, HType.env] }
                else
                  let conn5 := { conn4 with usrSession := some native.sessionPtr }
                  if dsn.externalauthentication = false ∧ native.attrSetUsername ≠ OCI_SUCCESS then
                    fail5 (.native native.attrSetUsername) conn5
                  else if dsn.externalauthentication = false ∧ native.attrSetPassword ≠ OCI_SUCCESS then
                    fail5 (.native native.attrSetPassword) conn5
                  else if native.attrSetSession ≠ OCI_SUCCESS then
                    fail5 (.native native.attrSetSession) conn5
                  else
                    { ok := true, errMsg := none, conn := copySettings conn5 dsn,
                      allocs := [HType.env, HType.err, HType.srv, HType.svc, HType.session],
                      frees := [] }
        else
          if native.logon ≠ OCI_SUCCESS ∧ native.logon ≠ OCI_SUCCESS_WITH_INFO then
            { ok := false, errMsg := some (.native native.logon), conn := conn2,
              allocs := [HType.env, HType.err], frees := [HType.err, HType.env] }
          else
            let conn3 := { conn2 with svc := some native.logonPtr }
            { ok := true, errMsg := none, conn := copySettings conn3 dsn,
              allocs := [HType.env, HType.err], frees := [] }

/-- The transaction object: a back-reference to its connection. -/
structure OCI8Tx where
  conn : ConnState
  deriving DecidableEq, Repr

/-- `Commit` (source lines 128-137): clears the connection's
in-transaction flag, then issues `OCITransCommit`; a non-success status
yields the native diagnostic. -/
def OCI8Tx.Commit (tx : OCI8Tx) (native : Native) : OCI8Tx × Option OpenErr :=
  let tx1 : OCI8Tx := { conn := { tx.conn with inTransaction := false } }
  if native.transCommit ≠ OCI_SUCCESS then (tx1, some (.native native.transCommit))
  else (tx1, none)

/-- `Rollback` (source lines 140-149): clears the connection's
in-transaction flag, then issues `OCITransRollback`; a non-success
status yields the native diagnostic. -/
def OCI8Tx.Rollback (tx : OCI8Tx) (native : Native) : OCI8Tx × Option OpenErr :=
  let tx1 : OCI8Tx := { conn := { tx.conn with inTransaction := false } }
  if native.transRollback ≠ OCI_SUCCESS then (tx1, some (.native native.transRollback))
  else (tx1, none)

/-! ### Helper lemmas -/

theorem string_length_eq_zero {t : String} : t.length = 0 ↔ t = "" := by
  constructor
  · intro h
    apply String.ext
    have h2 : t.data.length = 0 := h
    rw [List.length_eq_zero] at h2
    rw [h2]
  · intro h
    subst h
    rfl

theorem digitChar_ne_qm (n : Nat) : Nat.digitChar n ≠ '?' := by
  rcases Nat.lt_or_ge n 16 with h | h
  · interval_cases n <;> decide
  · have hs : Nat.digitChar n = '*' := by
      unfold Nat.digitChar
      repeat rw [if_neg (by omega)]
    rw [hs]; decide

theorem toDigitsCore_ne_qm (b : Nat) :
    ∀ (f n : Nat) (acc : List Char), (∀ c ∈ acc, c ≠ '?') →
      ∀ c ∈ Nat.toDigitsCore b f n acc, c ≠ '?' := by
  intro f
  induction f with
  | zero => intro n acc hacc c hc; exact hacc c hc
  | succ f ih =>
    intro n acc hacc c hc
    unfold Nat.toDigitsCore at hc
    simp only [] at hc
    split at hc
    · rcases List.mem_cons.mp hc with h1 | h1
      · rw [h1]; exact digitChar_ne_qm _
      · exact hacc c h1
    · refine ih _ _ ?_ c hc
      intro d hd
      rcases List.mem_cons.mp hd with h1 | h1
      · rw [h1]; exact digitChar_ne_qm _
      · exact hacc d h1

theorem repr_ne_qm (n : Nat) : ∀ c ∈ (Nat.repr n).data, c ≠ '?' := by
  intro c hc
  have : (Nat.repr n).data = Nat.toDigitsCore 10 (n + 1) n [] := rfl
  rw [this] at hc
  exact toDigitsCore_ne_qm 10 (n + 1) n [] (by intro d hd; cases hd) c hc

theorem placeholdersAux_ne_qm :
    ∀ (l : List Char) (n : Nat), ∀ c ∈ placeholdersAux l n, c ≠ '?' := by
  intro l
  induction l with
  | nil => intro n c hc; cases hc
  | cons x xs ih =>
    intro n c hc
    unfold placeholdersAux at hc
    split at hc
    · rcases List.mem_cons.mp hc with h1 | h1
      · rw [h1]; decide
      · rcases List.mem_append.mp h1 with h2 | h2
        · exact repr_ne_qm (n + 1) c h2
        · exact ih (n + 1) c h2
    · rcases List.mem_cons.mp hc with h1 | h1
      · rename_i hx
        rw [h1]; exact hx
      · exact ih n c h1

theorem placeholdersAux_id_of_no_qm :
    ∀ (l : List Char) (n : Nat), (∀ c ∈ l, c ≠ '?') → placeholdersAux l n = l := by
  intro l
  induction l with
  | nil => intro n _; rfl
  | cons x xs ih =>
    intro n hl
    unfold placeholdersAux
    rw [if_neg (hl x (List.mem_cons_self x xs))]
    rw [ih n (fun c hc => hl c (List.mem_cons_of_mem x hc))]

theorem applyParam_ext (loadLoc : String → Option String) (d : DSN) (k : String)
    (v : List String) (d' : DSN) (h : applyParam loadLoc d k v = .ok d') :
    d'.externalauthentication = d.externalauthentication := by
  unfold applyParam at h
  repeat' split at h
  all_goals try (injection h with h2; subst h2)
  all_goals simp_all

theorem applyParams_ext (loadLoc : String → Option String) :
    ∀ (qp : List (String × List String)) (d d' : DSN),
      applyParams loadLoc d qp = .ok d' →
      d'.externalauthentication = d.externalauthentication := by
  intro qp
  induction qp with
  | nil =>
    intro d d' h
    injection h with h2
    subst h2
    rfl
  | cons kv rest ih =>
    intro d d' h
    rcases kv with ⟨k, v⟩
    unfold applyParams at h
    split at h
    · rename_i d1 heq
      rw [ih d1 d' h]
      exact applyParam_ext loadLoc d k v d1 heq
    · exact absurd h (by simp)

theorem applyParam_qm (loadLoc : String → Option String) (d : DSN) (k : String)
    (v : List String) (d' : DSN) (hk : k ≠ "questionph")
    (h : applyParam loadLoc d k v = .ok d') :
    d'.enableQMPlaceholders = d.enableQMPlaceholders := by
  unfold applyParam at h
  repeat' split at h
  all_goals try (injection h with h2; subst h2)
  all_goals simp_all

theorem applyParams_qm (loadLoc : String → Option String) :
    ∀ (qp : List (String × List String)) (d d' : DSN),
      (∀ kv ∈ qp, kv.1 ≠ "questionph") →
      applyParams loadLoc d qp = .ok d' →
      d'.enableQMPlaceholders = d.enableQMPlaceholders := by
  intro qp
  induction qp with
  | nil =>
    intro d d' _ h
    injection h with h2
    subst h2
    rfl
  | cons kv rest ih =>
    intro d d' hk h
    rcases kv with ⟨k, v⟩
    unfold applyParams at h
    split at h
    · rename_i d1 heq
      rw [ih d1 d' (fun x hx => hk x (List.mem_cons_of_mem _ hx)) h]
      exact applyParam_qm loadLoc d k v d1 (hk (k, v) (List.mem_cons_self _ _)) heq
    · exact absurd h (by simp)

theorem applyParam_keeps_defaults (loadLoc : String → Option String) (d : DSN) (k : String)
    (v : List String) (d' : DSN) (h1 : k ≠ "loc") (h2 : k ≠ "as")
    (h3 : k ≠ "prefetch_rows") (h4 : k ≠ "prefetch_memory")
    (h : applyParam loadLoc d k v = .ok d') :
    d'.prefetchRows = d.prefetchRows ∧ d'.prefetchMemory = d.prefetchMemory ∧
      d'.operationMode = d.operationMode ∧ d'.Location = d.Location := by
  unfold applyParam at h
  repeat' split at h
  all_goals try (injection h with h5; subst h5)
  all_goals simp_all

theorem applyParams_keeps_defaults (loadLoc : String → Option String) :
    ∀ (qp : List (String × List String)) (d d' : DSN),
      (∀ kv ∈ qp, kv.1 ≠ "loc" ∧ kv.1 ≠ "as" ∧ kv.1 ≠ "prefetch_rows" ∧
        kv.1 ≠ "prefetch_memory") →
      applyParams loadLoc d qp = .ok d' →
      d'.prefetchRows = d.prefetchRows ∧ d'.prefetchMemory = d.prefetchMemory ∧
        d'.operationMode = d.operationMode ∧ d'.Location = d.Location := by
  intro qp
  induction qp with
  | nil =>
    intro d d' _ h
    injection h with h2
    subst h2
    exact ⟨rfl, rfl, rfl, rfl⟩
  | cons kv rest ih =>
    intro d d' hk h
    rcases kv with ⟨k, v⟩
    unfold applyParams at h
    split at h
    · rename_i d1 heq
      have hhead := hk (k, v) (List.mem_cons_self _ _)
      have hstep := applyParam_keeps_defaults loadLoc d k v d1 hhead.1 hhead.2.1
        hhead.2.2.1 hhead.2.2.2 heq
      have htail := ih d1 d' (fun x hx => hk x (List.mem_cons_of_mem _ hx)) h
      exact ⟨htail.1.trans hstep.1, htail.2.1.trans hstep.2.1,
        htail.2.2.1.trans hstep.2.2.1, htail.2.2.2.trans hstep.2.2.2⟩
    · exact absurd h (by simp)

/-! ### Claim theorems -/

/-- C2 counterexample: on `"u@host?%zz=1"` the query-string parser
signals an invalid-escape failure, yet `ParseDSN` does not abort with
that error and a nil configuration — it returns a configuration,
because the source never checks the error returned by `ParseQuery`
(line 65 assigns it, line 124 returns nil error regardless). -/
theorem query_error_ignored_cex :
    (ParseQuery (queryPart "u@host?%zz=1")).2 = some "invalid URL escape" ∧
    ParseDSN (fun _ => none) "u@host?%zz=1" =
      .ok { Username := "u", Connect := "host", Location := "Local", prefetchRows := 10 } :=
  ⟨rfl, rfl⟩

/-- C2 (amended): if empty input, authority parsing, host unescaping,
or validation of a recognized parameter signals failure, `ParseDSN`
aborts and returns that error with no configuration; an error signalled
by query-string parsing, however, is silently ignored — parsing
continues with the successfully parsed parameters and a configuration
is returned. -/
theorem parse_abort_behavior (loadLoc : String → Option String) (s : String) :
    (s = "" → ParseDSN loadLoc s = .error "empty dsn") ∧
    (s ≠ "" →
      (∀ e, authorityResult (splitRight (stripScheme s) '@').1 = .error e →
        ParseDSN loadLoc s = .error e) ∧
      (∀ u p, authorityResult (splitRight (stripScheme s) '@').1 = .ok (u, p) →
        (∀ e, unescape (hostPart s) Encoding.host = .error e →
          ParseDSN loadLoc s = .error e) ∧
        (∀ host, unescape (hostPart s) Encoding.host = .ok host →
          (∀ e, applyParams loadLoc (dsnAfterHost u p host) (queryOf s) = .error e →
            ParseDSN loadLoc s = .error e) ∧
          (∀ d, applyParams loadLoc (dsnAfterHost u p host) (queryOf s) = .ok d →
            (ParseDSN loadLoc s).isOk = true)))) := by
  refine ⟨?_, ?_⟩
  · intro hs
    simp [ParseDSN, hs]
  · intro hs
    refine ⟨?_, ?_⟩
    · intro e he
      simp [ParseDSN, hs, he]
    · intro u p hup
      refine ⟨?_, ?_⟩
      · intro e he
        simp [ParseDSN, hs, hup, he]
      · intro host hh
        refine ⟨?_, ?_⟩
        · intro e he
          simp [ParseDSN, hs, hup, hh, he]
        · intro d hd
          simp only [ParseDSN, if_neg hs, hup, hh, hd]
          split <;> rfl

/-- C2 witness: the empty input aborts with the "empty dsn" error. -/
theorem parse_abort_behavior_witness :
    ParseDSN (fun _ => none) "" = .error "empty dsn" :=
  (parse_abort_behavior (fun _ => none) "").1 rfl

/-- C6: for every successfully parsed connection string, the
external-authentication flag is true if and only if the parsed
username, password and connect-string are all empty. -/
theorem externalauth_iff (loadLoc : String → Option String) (s : String) (cfg : DSN)
    (h : ParseDSN loadLoc s = .ok cfg) :
    (cfg.externalauthentication = true ↔
      (cfg.Username = "" ∧ cfg.Password = "" ∧ cfg.Connect = "")) := by
  by_cases hs : s = ""
  · simp [ParseDSN, hs] at h
  · rcases hA : authorityResult (splitRight (stripScheme s) '@').1 with e | ⟨u, p⟩
    · simp [ParseDSN, hs, hA] at h
    · rcases hH : unescape (hostPart s) Encoding.host with e | host
      · simp [ParseDSN, hs, hA, hH] at h
      · rcases hQ : applyParams loadLoc (dsnAfterHost u p host) (queryOf s) with e | d
        · simp [ParseDSN, hs, hA, hH, hQ] at h
        · simp only [ParseDSN, if_neg hs, hA, hH, hQ] at h
          have hde : d.externalauthentication = false := by
            rw [applyParams_ext loadLoc (queryOf s) (dsnAfterHost u p host) d hQ]
            rfl
          by_cases hsum : d.Username.length + d.Password.length + d.Connect.length = 0
          · rw [if_pos hsum] at h
            injection h with h2
            subst h2
            have h1 : d.Username = "" := string_length_eq_zero.mp (by omega)
            have h2 : d.Password = "" := string_length_eq_zero.mp (by omega)
            have h3 : d.Connect = "" := string_length_eq_zero.mp (by omega)
            simp [h1, h2, h3]
          · rw [if_neg hsum] at h
            injection h with h2
            subst h2
            rw [hde]
            constructor
            · intro hx
              cases hx
            · rintro ⟨hu, hp, hc⟩
              exfalso
              apply hsum
              rw [hu, hp, hc]
              rfl

/-- C6 witness: the external-authentication DSN `"/"` parses with all
three fields empty and the flag set. -/
theorem externalauth_iff_witness :
    (({ Location := "Local", prefetchRows := 10, externalauthentication := true } : DSN).externalauthentication = true ↔
      (({ Location := "Local", prefetchRows := 10, externalauthentication := true } : DSN).Username = "" ∧
       ({ Location := "Local", prefetchRows := 10, externalauthentication := true } : DSN).Password = "" ∧
       ({ Location := "Local", prefetchRows := 10, externalauthentication := true } : DSN).Connect = "")) :=
  externalauth_iff (fun _ => none) "/"
    { Location := "Local", prefetchRows := 10, externalauthentication := true } (by rfl)

/-- C8: for every successfully parsed connection string whose query
contains none of `loc`, `as`, `prefetch_rows`, `prefetch_memory`, the
configuration has prefetch rows 10, prefetch memory 0, the default
privileged mode, and the local timezone. -/
theorem parse_defaults (loadLoc : String → Option String) (s : String) (cfg : DSN)
    (h : ParseDSN loadLoc s = .ok cfg)
    (hq : ∀ kv ∈ queryOf s, kv.1 ≠ "loc" ∧ kv.1 ≠ "as" ∧ kv.1 ≠ "prefetch_rows" ∧
      kv.1 ≠ "prefetch_memory") :
    cfg.prefetchRows = 10 ∧ cfg.prefetchMemory = 0 ∧ cfg.operationMode = OCI_DEFAULT ∧
      cfg.Location = "Local" := by
  by_cases hs : s = ""
  · simp [ParseDSN, hs] at h
  · rcases hA : authorityResult (splitRight (stripScheme s) '@').1 with e | ⟨u, p⟩
    · simp [ParseDSN, hs, hA] at h
    · rcases hH : unescape (hostPart s) Encoding.host with e | host
      · simp [ParseDSN, hs, hA, hH] at h
      · rcases hQ : applyParams loadLoc (dsnAfterHost u p host) (queryOf s) with e | d
        · simp [ParseDSN, hs, hA, hH, hQ] at h
        · simp only [ParseDSN, if_neg hs, hA, hH, hQ] at h
          have hpres := applyParams_keeps_defaults loadLoc (queryOf s)
            (dsnAfterHost u p host) d hq hQ
          by_cases hsum : d.Username.length + d.Password.length + d.Connect.length = 0 <;>
            [rw [if_pos hsum] at h; rw [if_neg hsum] at h] <;>
              (injection h with h2; subst h2; exact hpres)

/-- C8 witness: a DSN whose query sets only `questionph` keeps all four
defaults. -/
theorem parse_defaults_witness :
    (({ Username := "u", Connect := "h", Location := "Local", prefetchRows := 10,
        enableQMPlaceholders := true } : DSN).prefetchRows = 10 ∧
     ({ Username := "u", Connect := "h", Location := "Local", prefetchRows := 10,
        enableQMPlaceholders := true } : DSN).prefetchMemory = 0 ∧
     ({ Username := "u", Connect := "h", Location := "Local", prefetchRows := 10,
        enableQMPlaceholders := true } : DSN).operationMode = OCI_DEFAULT ∧
     ({ Username := "u", Connect := "h", Location := "Local", prefetchRows := 10,
        enableQMPlaceholders := true } : DSN).Location = "Local") :=
  parse_defaults (fun _ => none) "u@h?questionph=YES"
    { Username := "u", Connect := "h", Location := "Local", prefetchRows := 10,
      enableQMPlaceholders := true } (by rfl) (by decide)

/-- C9: for every successfully parsed connection string whose query
does not contain a `questionph` parameter, the question-mark-placeholder
flag of the configuration is false. -/
theorem questionph_default (loadLoc : String → Option String) (s : String) (cfg : DSN)
    (h : ParseDSN loadLoc s = .ok cfg)
    (hq : ∀ kv ∈ queryOf s, kv.1 ≠ "questionph") :
    cfg.enableQMPlaceholders = false := by
  by_cases hs : s = ""
  · simp [ParseDSN, hs] at h
  · rcases hA : authorityResult (splitRight (stripScheme s) '@').1 with e | ⟨u, p⟩
    · simp [ParseDSN, hs, hA] at h
    · rcases hH : unescape (hostPart s) Encoding.host with e | host
      · simp [ParseDSN, hs, hA, hH] at h
      · rcases hQ : applyParams loadLoc (dsnAfterHost u p host) (queryOf s) with e | d
        · simp [ParseDSN, hs, hA, hH, hQ] at h
        · simp only [ParseDSN, if_neg hs, hA, hH, hQ] at h
          have hpres := applyParams_qm loadLoc (queryOf s) (dsnAfterHost u p host) d hq hQ
          by_cases hsum : d.Username.length + d.Password.length + d.Connect.length = 0 <;>
            [rw [if_pos hsum] at h; rw [if_neg hsum] at h] <;>
              (injection h with h2; subst h2; exact hpres)

/-- C9 witness: a DSN whose query sets only `prefetch_rows` leaves the
question-mark-placeholder flag false. -/
theorem questionph_default_witness :
    ({ Username := "u", Connect := "h", Location := "Local",
       prefetchRows := 20 } : DSN).enableQMPlaceholders = false :=
  questionph_default (fun _ => none) "u@h?prefetch_rows=20"
    { Username := "u", Connect := "h", Location := "Local", prefetchRows := 20 }
    (by rfl) (by decide)

/-- C7: `placeholders` replaces each `?`, left to right, with
sequentially numbered markers `:1`, `:2`, ..., restarting at 1 on every
call; the stated example holds; the output contains no remaining `?`,
so a second application changes nothing. -/
theorem placeholders_spec :
    placeholders "SELECT * FROM t WHERE a=? AND b=?" = "SELECT * FROM t WHERE a=:1 AND b=:2" ∧
    (∀ s : String, ∀ c ∈ (placeholders s).data, c ≠ '?') ∧
    (∀ s : String, placeholders (placeholders s) = placeholders s) := by
  refine ⟨rfl, ?_, ?_⟩
  · intro s c hc
    exact placeholdersAux_ne_qm s.data 0 c hc
  · intro s
    unfold placeholders
    exact congrArg String.mk (placeholdersAux_id_of_no_qm _ 0 (placeholdersAux_ne_qm s.data 0))

/-- C4: `Commit` and `Rollback` each set the owning connection's
in-transaction flag to false before the native call, so the flag is
false after the operation in every case; on native failure the native
diagnostic is returned. -/
theorem commit_rollback_clear_flag (tx : OCI8Tx) (native : Native) :
    ((tx.Commit native).1.conn.inTransaction = false ∧
      (tx.Commit native).2 = (if native.transCommit = OCI_SUCCESS then none
        else some (OpenErr.native native.transCommit))) ∧
    ((tx.Rollback native).1.conn.inTransaction = false ∧
      (tx.Rollback native).2 = (if native.transRollback = OCI_SUCCESS then none
        else some (OpenErr.native native.transRollback))) := by
  unfold OCI8Tx.Commit OCI8Tx.Rollback
  by_cases h1 : native.transCommit = OCI_SUCCESS <;>
    by_cases h2 : native.transRollback = OCI_SUCCESS <;>
      simp [h1, h2]

/-- C3 counterexample: the claim says any case variant of SYSDBA is
accepted, e.g. `SysDba`; the code accepts only the all-uppercase and
all-lowercase spellings, so `as=SysDba` makes `ParseDSN` fail. -/
theorem as_mixed_case_rejected :
    ParseDSN (fun _ => none) "u@h?as=SysDba" = .error "Invalid as: SysDba" := rfl

/-- C3 (amended): the `as` parameter is matched case-sensitively
against six spellings: `SYSDBA`/`sysdba`, `SYSASM`/`sysasm`,
`SYSOPER`/`sysoper` set the corresponding privileged mode; any other
value (including mixed case such as `SysDba`) fails with an error. -/
theorem as_mapping (loadLoc : String → Option String) (dsn : DSN) (v : String)
    (vs : List String) :
    applyParam loadLoc dsn "as" (v :: vs) =
      (if v = "SYSDBA" ∨ v = "sysdba" then .ok { dsn with operationMode := OCI_SYSDBA }
       else if v = "SYSASM" ∨ v = "sysasm" then .ok { dsn with operationMode := OCI_SYSASM }
       else if v = "SYSOPER" ∨ v = "sysoper" then .ok { dsn with operationMode := OCI_SYSOPER }
       else .error ("Invalid as: " ++ v)) := by
  unfold applyParam
  by_cases h1 : v = "SYSDBA" <;> by_cases h2 : v = "sysdba" <;>
    by_cases h3 : v = "SYSASM" <;> by_cases h4 : v = "sysasm" <;>
      by_cases h5 : v = "SYSOPER" <;> by_cases h6 : v = "sysoper" <;>
        simp_all

/-- C1: for every failure exit of `Open` — at any checked step of the
acquisition ladder in either branch — exactly the handles successfully
acquired before that step are released, in reverse order of
acquisition, before the error is returned, and no acquired handle is
leaked. -/
theorem unwind_on_failure (loadLoc : String → Option String) (native : Native) (useB : Bool)
    (s : String) (h : (Open loadLoc native useB s).ok = false) :
    (Open loadLoc native useB s).frees = (Open loadLoc native useB s).allocs.reverse ∧
    ∀ t ∈ (Open loadLoc native useB s).allocs, t ∈ (Open loadLoc native useB s).frees := by
  have he : (Open loadLoc native useB s).frees = (Open loadLoc native useB s).allocs.reverse := by
    rcases hE : ParseDSN loadLoc s with e | dsn
    · simp [Open, hE]
    · by_cases h1 : native.envCreate ≠ OCI_SUCCESS ∧ native.envCreate ≠ OCI_SUCCESS_WITH_INFO
      · simp [Open, hE, h1]
      · by_cases h2 : native.allocErr ≠ OCI_SUCCESS
        · simp [Open, hE, h1, h2]
        · cases useB with
          | false =>
            by_cases h3 : native.logon ≠ OCI_SUCCESS ∧ native.logon ≠ OCI_SUCCESS_WITH_INFO
            · simp [Open, hE, h1, h2, h3]
            · exfalso
              simp [Open, hE, h1, h2, h3] at h
          | true =>
            by_cases h4 : native.allocSrv ≠ OCI_SUCCESS
            · simp [Open, hE, h1, h2, h4]
            · by_cases h5 : native.allocSvc ≠ OCI_SUCCESS
              · simp [Open, hE, h1, h2, h4, h5]
              · by_cases h6 : native.attrSetServer ≠ OCI_SUCCESS
                · simp [Open, hE, h1, h2, h4, h5, h6]
                · by_cases h7 : native.allocSession ≠ OCI_SUCCESS
                  · simp [Open, hE, h1, h2, h4, h5, h6, h7]
                  · by_cases h8 : dsn.externalauthentication = false ∧
                        native.attrSetUsername ≠ OCI_SUCCESS
                    · simp [Open, hE, h1, h2, h4, h5, h6, h7, h8, fail5]
                    · by_cases h9 : dsn.externalauthentication = false ∧
                          native.attrSetPassword ≠ OCI_SUCCESS
                      · have hu : native.attrSetUsername = OCI_SUCCESS := by
                          by_contra hco
                          exact h8 ⟨h9.1, hco⟩
                        simp [Open, hE, h1, h2, h4, h5, h6, h7, h8, h9, hu, fail5]
                      · by_cases h10 : native.attrSetSession ≠ OCI_SUCCESS
                        · simp [Open, hE, h1, h2, h4, h5, h6, h7, h8, h9, h10, fail5]
                        · exfalso
                          simp [Open, hE, h1, h2, h4, h5, h6, h7, h8, h9, h10] at h
  refine ⟨he, fun t ht => ?_⟩
  rw [he, List.mem_reverse]
  exact ht

/-- C1 witness: a concrete failing run (the error-handle allocation
fails) releases exactly the acquired environment handle. -/
theorem unwind_on_failure_witness :
    (Open (fun _ => none) { allocErr := -1 } true "/").frees =
      (Open (fun _ => none) { allocErr := -1 } true "/").allocs.reverse :=
  (unwind_on_failure (fun _ => none) { allocErr := -1 } true "/" rfl).1

/-- C5: in the direct-logon branch, the combined logon call counts as
success precisely when its status is success or
success-with-informational-diagnostic, in which case its returned
pointer becomes the connection's service-context handle; any other
status releases the error handle then the environment handle and
returns the native diagnostic. -/
theorem direct_logon_branch (loadLoc : String → Option String) (native : Native) (s : String)
    (dsn : DSN) (hP : ParseDSN loadLoc s = .ok dsn)
    (henv : native.envCreate = OCI_SUCCESS ∨ native.envCreate = OCI_SUCCESS_WITH_INFO)
    (herr : native.allocErr = OCI_SUCCESS) :
    ((native.logon = OCI_SUCCESS ∨ native.logon = OCI_SUCCESS_WITH_INFO) →
      (Open loadLoc native false s).ok = true ∧
      (Open loadLoc native false s).conn.svc = some native.logonPtr ∧
      (Open loadLoc native false s).errMsg = none) ∧
    (¬(native.logon = OCI_SUCCESS ∨ native.logon = OCI_SUCCESS_WITH_INFO) →
      (Open loadLoc native false s).ok = false ∧
      (Open loadLoc native false s).errMsg = some (.native native.logon) ∧
      (Open loadLoc native false s).frees = [HType.err, HType.env]) := by
  have h1 : ¬(native.envCreate ≠ OCI_SUCCESS ∧ native.envCreate ≠ OCI_SUCCESS_WITH_INFO) := by
    rcases henv with h | h <;> simp [h]
  constructor
  · intro hl
    have h3 : ¬(native.logon ≠ OCI_SUCCESS ∧ native.logon ≠ OCI_SUCCESS_WITH_INFO) := by
      rcases hl with h | h <;> simp [h]
    simp [Open, hP, h1, herr, h3, copySettings]
  · intro hl
    push_neg at hl
    simp [Open, hP, h1, herr, hl.1, hl.2]

/-- C5 witness: a concrete direct-branch run whose logon status is
success-with-informational-diagnostic succeeds and stores the logon
pointer as the service-context handle. -/
theorem direct_logon_branch_witness :
    (Open (fun _ => none) { logon := 1, logonPtr := 42 } false "u/p@h").ok = true ∧
    (Open (fun _ => none) { logon := 1, logonPtr := 42 } false "u/p@h").conn.svc = some 42 ∧
    (Open (fun _ => none) { logon := 1, logonPtr := 42 } false "u/p@h").errMsg = none :=
  (direct_logon_branch (fun _ => none) { logon := 1, logonPtr := 42 } "u/p@h"
    { Username := "u", Password := "p", Connect := "h", Location := "Local", prefetchRows := 10 }
    (by rfl) (Or.inl rfl) rfl).1 (Or.inr rfl)

/-- C10: at the first ladder step, both plain success and
success-with-informational-diagnostic from environment-handle creation
count as success and `Open` proceeds with the returned environment
handle; any other status yields the generic cannot-create-environment
error with nothing allocated. -/
theorem env_create_two_outcome (loadLoc : String → Option String) (native : Native)
    (useB : Bool) (s : String) (dsn : DSN) (hP : ParseDSN loadLoc s = .ok dsn) :
    ((native.envCreate = OCI_SUCCESS ∨ native.envCreate = OCI_SUCCESS_WITH_INFO) →
      (Open loadLoc native useB s).conn.env = some native.envPtr ∧
      (Open loadLoc native useB s).errMsg ≠ some (.generic "can't OCIEnvCreate")) ∧
    (¬(native.envCreate = OCI_SUCCESS ∨ native.envCreate = OCI_SUCCESS_WITH_INFO) →
      (Open loadLoc native useB s).ok = false ∧
      (Open loadLoc native useB s).errMsg = some (.generic "can't OCIEnvCreate") ∧
      (Open loadLoc native useB s).allocs = []) := by
  constructor
  · intro henv
    have h1 : ¬(native.envCreate ≠ OCI_SUCCESS ∧ native.envCreate ≠ OCI_SUCCESS_WITH_INFO) := by
      rcases henv with h | h <;> simp [h]
    by_cases h2 : native.allocErr ≠ OCI_SUCCESS
    · simp [Open, hP, h1, h2]
    · cases useB with
      | false =>
        by_cases h3 : native.logon ≠ OCI_SUCCESS ∧ native.logon ≠ OCI_SUCCESS_WITH_INFO
        · simp [Open, hP, h1, h2, h3]
        · simp [Open, hP, h1, h2, h3, copySettings]
      | true =>
        by_cases h4 : native.allocSrv ≠ OCI_SUCCESS
        · simp [Open, hP, h1, h2, h4]
        · by_cases h5 : native.allocSvc ≠ OCI_SUCCESS
          · simp [Open, hP, h1, h2, h4, h5]
          · by_cases h6 : native.attrSetServer ≠ OCI_SUCCESS
            · simp [Open, hP, h1, h2, h4, h5, h6]
            · by_cases h7 : native.allocSession ≠ OCI_SUCCESS
              · simp [Open, hP, h1, h2, h4, h5, h6, h7]
              · by_cases h8 : dsn.externalauthentication = false ∧
                    native.attrSetUsername ≠ OCI_SUCCESS
                · simp [Open, hP, h1, h2, h4, h5, h6, h7, h8, fail5]
                · by_cases h9 : dsn.externalauthentication = false ∧
                      native.attrSetPassword ≠ OCI_SUCCESS
                  · have hu : native.attrSetUsername = OCI_SUCCESS := by
                      by_contra hco
                      exact h8 ⟨h9.1, hco⟩
                    simp [Open, hP, h1, h2, h4, h5, h6, h7, h8, h9, hu, fail5]
                  · by_cases h10 : native.attrSetSession ≠ OCI_SUCCESS
                    · simp [Open, hP, h1, h2, h4, h5, h6, h7, h8, h9, h10, fail5]
                    · simp [Open, hP, h1, h2, h4, h5, h6, h7, h8, h9, h10, copySettings]
  · intro henv
    push_neg at henv
    simp [Open, hP, henv.1, henv.2]

/-- C10 witness: a concrete run whose environment creation returns an
error status fails with the generic message and allocates nothing. -/
theorem env_create_two_outcome_witness :
    (Open (fun _ => none) { envCreate := -1 } false "u/p@h").ok = false ∧
    (Open (fun _ => none) { envCreate := -1 } false "u/p@h").errMsg =
      some (.generic "can't OCIEnvCreate") ∧
    (Open (fun _ => none) { envCreate := -1 } false "u/p@h").allocs = [] :=
  (env_create_two_outcome (fun _ => none) { envCreate := -1 } false "u/p@h"
    { Username := "u", Password := "p", Connect := "h", Location := "Local", prefetchRows := 10 }
    (by rfl)).2 (by decide)

end Oci8
